import Mathlib

/-!
Verification development for the lando-api landing-job queue fragment.

The definitions below shallowly embed the Python source:
* `post` embeds `landoapi/api/try.py` (the try-push submission endpoint);
* `uplift_create_validation` embeds the validation part of
  `landoapi/api/uplift.py::create`;
* `move_drev_to_original` embeds `landoapi/uplift.py::move_drev_to_original`
  together with the two `re.MULTILINE` regular expressions it uses;
* the durable store (`LandingJob`, `Revision`, `add_job_with_revisions`,
  `job_queue_query`, `try_claim`) is not part of the available source
  fragment and is modelled from the specification text (each such
  definition says so in its doc comment).
-/

/-- Landing job statuses, from the spec's state machine (section 4.3) and the
`LandingJobStatus` enum imported by `landoapi/api/try.py`. -/
inductive LandingJobStatus where
  | SUBMITTED
  | IN_PROGRESS
  | DEFERRED
  | LANDED
  | FAILED
  | CANCELLED
deriving DecidableEq, Repr

/-- A repository record as used by `landoapi/api/try.py` (`try_repo.short_name`,
`try_repo.url`) and `landoapi/api/uplift.py` (`repository.approval_required`). -/
structure Repo where
  short_name : String
  url : String
  approval_required : Bool
deriving DecidableEq, Repr

/-- A revision row, from the spec's data model (section 3): patch content plus
its position inside the owning job. -/
structure Revision where
  id : Nat
  patch_bytes : String
  landing_job_id : Nat
  sequence_index : Nat
deriving DecidableEq, Repr

/-- A landing job row, from the spec's data model (section 3). Timestamps are
abstracted as naturals. -/
structure LandingJob where
  id : Nat
  status : LandingJobStatus
  repository_name : String
  repository_url : String
  requester_email : String
  target_cset : String
  created_at : Nat
  updated_at : Nat
  attempts : Nat
  error_message : String
deriving DecidableEq, Repr

/-- The durable store: one jobs table and one revisions table (spec section 6,
persisted state layout). -/
structure DB where
  jobs : List LandingJob
  revisions : List Revision
deriving DecidableEq, Repr

/-- Build the revision rows for a job: `sequence_index` counts up from `i`,
row ids count up from `rid_base`, all rows owned by job `jid`. -/
def mkRevisions (rid_base jid : Nat) : Nat → List String → List Revision
  | _, [] => []
  | i, p :: ps =>
    { id := rid_base + i, patch_bytes := p, landing_job_id := jid,
      sequence_index := i } :: mkRevisions rid_base jid (i + 1) ps

/-- Modelled from the spec: `add_job_with_revisions` (imported by
`landoapi/api/try.py` from `landoapi.models.landing_job`, a module not present
in the source fragment). Spec section 4.1: atomically persist one LandingJob
with the given status and N Revision rows with `sequence_index` 0..N-1 in
input order; the new job's `created_at`/`updated_at` are the submission time. -/
def add_job_with_revisions (db : DB) (patches : List String)
    (repository_name repository_url requester_email : String)
    (status : LandingJobStatus) (target_cset : String) (now : Nat) : DB :=
  let jid := db.jobs.length
  let job : LandingJob :=
    { id := jid, status := status, repository_name := repository_name,
      repository_url := repository_url, requester_email := requester_email,
      target_cset := target_cset, created_at := now, updated_at := now,
      attempts := 0, error_message := "" }
  { jobs := db.jobs ++ [job],
    revisions := db.revisions ++ mkRevisions db.revisions.length jid 0 patches }

/-- Outcome of the try-push endpoint: HTTP 201 with no body, or a
`ProblemException` carrying a status code and title. -/
inductive TryResult where
  | created
  | problem (status : Nat) (title : String)
deriving DecidableEq, Repr

/-- Embedding of `landoapi/api/try.py::post` (lines 57-102). Auth decorators
are outside the fragment's core; `try_repo` is the result of the registry
lookup `get_repos_for_env(...).get("try")`; `ldap_username` is
`g.auth0_user.email`. Python's `not base_commit` is the empty-string test. -/
def post (try_repo : Option Repo) (db : DB) (base_commit : String)
    (patches : List String) (ldap_username : String) (now : Nat) :
    TryResult × DB :=
  if base_commit = "" ∨ base_commit.length ≠ 40 then
    (TryResult.problem 400 "Base commit must be a 40-character commit hash.", db)
  else if patches = [] then
    (TryResult.problem 400 "Patches must contain at least 1 patch.", db)
  else
    match try_repo with
    | none =>
      (TryResult.problem 500 "Could not find a `try` repo to submit to.", db)
    | some repo =>
      (TryResult.created,
        add_job_with_revisions db patches repo.short_name repo.url ldap_username
          LandingJobStatus.SUBMITTED base_commit now)

/-- Ready statuses for claiming (spec section 4.2): SUBMITTED, or DEFERRED
(whose retry delay is checked separately against `updated_at`). -/
def is_claimable : LandingJobStatus → Bool
  | LandingJobStatus.SUBMITTED => true
  | LandingJobStatus.DEFERRED => true
  | _ => false

/-- Modelled from the spec: eligibility filter of the Queue Selector
(section 4.2) for `LandingJob.job_queue_query` (module not present in the
source fragment). A job is eligible when it targets one of the requested
repositories, is in a ready status (SUBMITTED, or DEFERRED whose retry delay
has elapsed), and its `updated_at` is not within `grace_seconds` of now. -/
def job_eligible (repositories : List String) (grace_seconds retry_delay now : Nat)
    (j : LandingJob) : Bool :=
  repositories.contains j.repository_name &&
  (match j.status with
   | LandingJobStatus.SUBMITTED => true
   | LandingJobStatus.DEFERRED => decide (j.updated_at + retry_delay ≤ now)
   | _ => false) &&
  decide (j.updated_at + grace_seconds ≤ now)

/-- Queue order: ascending `created_at` (strict FIFO, spec section 4.2). -/
def jobLE (a b : LandingJob) : Prop := a.created_at ≤ b.created_at

instance : DecidableRel jobLE := fun a b => Nat.decLe a.created_at b.created_at

instance : IsTotal LandingJob jobLE :=
  ⟨fun a b => Nat.le_total a.created_at b.created_at⟩

instance : IsTrans LandingJob jobLE :=
  ⟨fun _ _ _ hab hbc => Nat.le_trans hab hbc⟩

/-- Modelled from the spec: `LandingJob.job_queue_query` (used by
`tests/test_try.py`, module not present in the source fragment). Spec
section 4.2: return the eligible jobs for the requested repositories ordered
by ascending `created_at`, with the debounce window `grace_seconds`. -/
def job_queue_query (db : DB) (repositories : List String)
    (grace_seconds now retry_delay : Nat) : List LandingJob :=
  List.insertionSort jobLE
    (db.jobs.filter (job_eligible repositories grace_seconds retry_delay now))

/-- Outcome of a worker claim attempt (spec sections 4.4 and 7): either the
job was transitioned to IN_PROGRESS, or another worker won (`ClaimConflict`). -/
inductive ClaimResult where
  | claimed
  | conflict
deriving DecidableEq, Repr

/-- The row-level effect of a successful claim: the row with the claimed id is
stamped IN_PROGRESS with a fresh `updated_at`; other rows are untouched. -/
def claim_update (job_id now : Nat) (k : LandingJob) : LandingJob :=
  if k.id == job_id then
    { k with status := LandingJobStatus.IN_PROGRESS, updated_at := now }
  else k

/-- Modelled from the spec: the atomic conditional claim of the Landing Worker
(section 4.4 (c)). A single atomic read-modify-write on the store: transition
the row with the given id to IN_PROGRESS only if its status and `updated_at`
still equal the values observed when the candidate was read and the status is
a ready status; otherwise change nothing and report `ClaimConflict`. -/
def try_claim (db : DB) (job_id : Nat) (observed_status : LandingJobStatus)
    (observed_updated_at now : Nat) : ClaimResult × DB :=
  match db.jobs.find? (fun k => k.id == job_id) with
  | none => (ClaimResult.conflict, db)
  | some j =>
    if j.status = observed_status ∧ j.updated_at = observed_updated_at ∧
        is_claimable j.status = true then
      (ClaimResult.claimed,
        { db with jobs := db.jobs.map (claim_update job_id now) })
    else (ClaimResult.conflict, db)

/-- Outcome of the validation part of the uplift `create` endpoint. -/
inductive UpliftValidation where
  | problem (status : Nat) (title : String)
  | proceed
deriving DecidableEq, Repr

/-- Embedding of the repository-validation part of
`landoapi/api/uplift.py::create` (lines 27-44). `all_repos` is the registry
lookup `get_repos_for_env(...)`; `proceed` stands for the rest of the endpoint
(approval-state check and revision creation, delegated to Phabricator). -/
def uplift_create_validation (all_repos : String → Option Repo)
    (repo_name : String) : UpliftValidation :=
  match all_repos repo_name with
  | none =>
    UpliftValidation.problem 400
      ("Repository " ++ repo_name ++ " is not a repository known to Lando.")
  | some repository =>
    if !repository.approval_required then
      UpliftValidation.problem 400
        ("Repository " ++ repo_name ++ " is not a repository known to Lando.")
    else if !repository.approval_required then
      UpliftValidation.problem 400
        ("Repository " ++ repo_name ++ " is not an uplift repository.")
    else UpliftValidation.proceed

/-! Helper lemmas about the revision rows created for a job. -/

theorem mkRevisions_length (rid_base jid : Nat) (ps : List String) :
    ∀ i, (mkRevisions rid_base jid i ps).length = ps.length := by
  induction ps with
  | nil => intro i; rfl
  | cons p ps ih => intro i; simp [mkRevisions, ih]

theorem mkRevisions_get? (rid_base jid : Nat) (ps : List String) :
    ∀ (i k : Nat), (mkRevisions rid_base jid i ps)[k]? =
      (ps[k]?).map (fun p =>
        { id := rid_base + (i + k), patch_bytes := p, landing_job_id := jid,
          sequence_index := i + k }) := by
  induction ps with
  | nil => intro i k; simp [mkRevisions]
  | cons p ps ih =>
    intro i k
    cases k with
    | zero => simp [mkRevisions]
    | succ k =>
      have harith : i + 1 + k = i + (k + 1) := by omega
      simp [mkRevisions, ih (i + 1) k, harith]

/-- C1: for every submission with a non-empty ordered list of N patches, a
resolvable repository, and a base revision of length 40, `post` succeeds
(HTTP 201) and persists exactly one LandingJob with status SUBMITTED and
exactly N Revision rows with `sequence_index` 0..N-1 matching the input order,
and the job is immediately visible to the Queue Selector for that repository. -/
theorem c1_submit_success (repo : Repo) (db : DB) (base_commit : String)
    (patches : List String) (email : String) (now retry_delay : Nat)
    (hp : patches ≠ []) (hb : base_commit.length = 40) :
    ∃ (job : LandingJob) (revs : List Revision),
      post (some repo) db base_commit patches email now
        = (TryResult.created,
            { jobs := db.jobs ++ [job], revisions := db.revisions ++ revs })
      ∧ job.status = LandingJobStatus.SUBMITTED
      ∧ revs.length = patches.length
      ∧ (∀ k, k < patches.length →
          (revs[k]?).map Revision.sequence_index = some k
          ∧ (revs[k]?).map Revision.patch_bytes = patches[k]?
          ∧ (revs[k]?).map Revision.landing_job_id = some job.id)
      ∧ job ∈ job_queue_query
          { jobs := db.jobs ++ [job], revisions := db.revisions ++ revs }
          [repo.short_name] 0 now retry_delay := by
  have h1 : ¬ (base_commit = "" ∨ base_commit.length ≠ 40) := by
    rintro (h | h)
    · rw [h] at hb; exact absurd hb (by decide)
    · exact h hb
  refine ⟨{ id := db.jobs.length, status := LandingJobStatus.SUBMITTED,
            repository_name := repo.short_name, repository_url := repo.url,
            requester_email := email, target_cset := base_commit,
            created_at := now, updated_at := now, attempts := 0,
            error_message := "" },
          mkRevisions db.revisions.length db.jobs.length 0 patches,
          ?_, rfl, mkRevisions_length _ _ _ 0, ?_, ?_⟩
  · simp [post, h1, hp, add_job_with_revisions]
  · intro k hk
    simp only [mkRevisions_get?]
    simp [List.getElem?_eq_getElem hk]
  · rw [job_queue_query, (List.perm_insertionSort jobLE _).mem_iff]
    refine List.mem_filter.mpr ⟨List.mem_append_right _ (List.mem_singleton.mpr rfl), ?_⟩
    simp [job_eligible]

/-- A database with no rows, used as the starting point for witnesses. -/
def db0 : DB := { jobs := [], revisions := [] }

/-- A resolvable try repository, used in witnesses. -/
def repo0 : Repo :=
  { short_name := "try", url := "http://hg.test", approval_required := false }

/-- A well-formed 40-character base commit hash (taken from the repository's
test suite). -/
def bc40 : String := "abcabcabcaabcabcabcaabcabcabcaabcabcabca"

/-- Witness for C1 at a concrete submission. -/
theorem c1_submit_success_witness :
    ∃ (job : LandingJob) (revs : List Revision),
      post (some repo0) db0 bc40 ["patch-1", "patch-2"] "user@example.com" 3
        = (TryResult.created,
            { jobs := db0.jobs ++ [job], revisions := db0.revisions ++ revs })
      ∧ job.status = LandingJobStatus.SUBMITTED
      ∧ revs.length = (["patch-1", "patch-2"] : List String).length
      ∧ (∀ k, k < (["patch-1", "patch-2"] : List String).length →
          (revs[k]?).map Revision.sequence_index = some k
          ∧ (revs[k]?).map Revision.patch_bytes
              = (["patch-1", "patch-2"] : List String)[k]?
          ∧ (revs[k]?).map Revision.landing_job_id = some job.id)
      ∧ job ∈ job_queue_query
          { jobs := db0.jobs ++ [job], revisions := db0.revisions ++ revs }
          [repo0.short_name] 0 3 7 :=
  c1_submit_success repo0 db0 bc40 ["patch-1", "patch-2"] "user@example.com" 3 7
    (by decide) (by decide)

/-- C2 counterexample: with a non-empty patch list and a resolvable repository
but no base revision supplied (Python's falsy empty string), `post` does not
succeed; it returns the 400 validation problem, refuting the claim that the
base revision is optional. -/
theorem c2_counterexample :
    (post (some repo0) db0 ("") ["patch-1"] "user@example.com" 0).1
      ≠ TryResult.created ∧
    post (some repo0) db0 ("") ["patch-1"] "user@example.com" 0
      = (TryResult.problem 400 "Base commit must be a 40-character commit hash.",
         db0) := by
  constructor
  · decide
  · decide

/-- C2 (amended): the base revision is required, not optional: `post` fails
with the 400 validation problem whenever the base commit is absent (empty) or
its length is not 40, and nothing is persisted. -/
theorem c2_base_commit_required (try_repo : Option Repo) (db : DB)
    (base_commit : String) (patches : List String) (email : String) (now : Nat)
    (h : base_commit = "" ∨ base_commit.length ≠ 40) :
    post try_repo db base_commit patches email now
      = (TryResult.problem 400 "Base commit must be a 40-character commit hash.",
         db) := by
  simp [post, h]

/-- Witness for the amended C2 at a concrete submission. -/
theorem c2_base_commit_required_witness :
    post (some repo0) db0 ("") ["patch-1"] "user@example.com" 0
      = (TryResult.problem 400 "Base commit must be a 40-character commit hash.",
         db0) :=
  c2_base_commit_required (some repo0) db0 ("") ["patch-1"] "user@example.com" 0
    (Or.inl rfl)

/-- C3: for every submission whose patch list is empty, `post` fails with a
400 validation problem and no job row is created (the store is returned
unchanged). -/
theorem c3_empty_patches_rejected (try_repo : Option Repo) (db : DB)
    (base_commit : String) (email : String) (now : Nat) :
    ∃ title, post try_repo db base_commit [] email now
      = (TryResult.problem 400 title, db) := by
  by_cases h : base_commit = "" ∨ base_commit.length ≠ 40
  · exact ⟨"Base commit must be a 40-character commit hash.", by simp [post, h]⟩
  · exact ⟨"Patches must contain at least 1 patch.", by simp [post, h]⟩

/-- C4: for every submission supplying a base revision whose length is not 40
characters, `post` fails with the 400 validation problem. -/
theorem c4_malformed_base_rejected (try_repo : Option Repo) (db : DB)
    (base_commit : String) (patches : List String) (email : String) (now : Nat)
    (h : base_commit.length ≠ 40) :
    post try_repo db base_commit patches email now
      = (TryResult.problem 400 "Base commit must be a 40-character commit hash.",
         db) := by
  simp [post, Or.inr h]

/-- Witness for C4 at a concrete submission (the test suite's `"abc"`). -/
theorem c4_malformed_base_rejected_witness :
    post (some repo0) db0 ("abc") ["patch-1"] "user@example.com" 0
      = (TryResult.problem 400 "Base commit must be a 40-character commit hash.",
         db0) :=
  c4_malformed_base_rejected (some repo0) db0 ("abc") ["patch-1"] "user@example.com"
    0 (by decide)

/-- C5: submission is atomic: whenever `post` fails (any non-201 outcome:
empty patch list, malformed base revision, unresolvable repository), the error
is the synchronous return value and the durable store is unchanged. -/
theorem c5_failed_submission_persists_nothing (try_repo : Option Repo) (db : DB)
    (base_commit : String) (patches : List String) (email : String) (now : Nat)
    (h : (post try_repo db base_commit patches email now).1 ≠ TryResult.created) :
    (post try_repo db base_commit patches email now).2 = db := by
  by_cases h1 : base_commit = "" ∨ base_commit.length ≠ 40
  · simp [post, h1]
  · by_cases h2 : patches = []
    · simp [post, h1, h2]
    · cases try_repo with
      | none => simp [post, h1, h2]
      | some repo => exact absurd (by simp [post, h1, h2]) h

/-- Witness for C5 at a concrete failing submission. -/
theorem c5_failed_submission_persists_nothing_witness :
    (post none db0 ("") [] "user@example.com" 0).2 = db0 :=
  c5_failed_submission_persists_nothing none db0 ("") [] "user@example.com" 0
    (by decide)

/-- C6 counterexample: a submission with an unresolvable try repository but an
empty patch list fails with the 400 patches problem, not with the 500
configuration problem, because the validation checks run first; this refutes
the claim as universally stated. -/
theorem c6_counterexample :
    post none db0 bc40 [] "user@example.com" 0
      = (TryResult.problem 400 "Patches must contain at least 1 patch.", db0) ∧
    (post none db0 bc40 [] "user@example.com" 0).1
      ≠ TryResult.problem 500 "Could not find a `try` repo to submit to." := by
  constructor
  · decide
  · decide

/-- C6 (amended): for every submission that passes input validation (base
revision of length 40, non-empty patches) but whose try repository cannot be
resolved, `post` fails with the 500 configuration problem and nothing is
persisted. -/
theorem c6_unresolvable_repo (db : DB) (base_commit : String)
    (patches : List String) (email : String) (now : Nat)
    (hb : base_commit.length = 40) (hp : patches ≠ []) :
    post none db base_commit patches email now
      = (TryResult.problem 500 "Could not find a `try` repo to submit to.", db) := by
  have h1 : ¬ (base_commit = "" ∨ base_commit.length ≠ 40) := by
    rintro (h | h)
    · rw [h] at hb; exact absurd hb (by decide)
    · exact h hb
  simp [post, h1, hp]

/-- Witness for the amended C6 at a concrete submission. -/
theorem c6_unresolvable_repo_witness :
    post none db0 bc40 ["patch-1"] "user@example.com" 0
      = (TryResult.problem 500 "Could not find a `try` repo to submit to.", db0) :=
  c6_unresolvable_repo db0 bc40 ["patch-1"] "user@example.com" 0 (by decide)
    (by decide)

/-- C7: queue ordering is strict FIFO per repository: the Queue Selector
returns every ready (eligible) job of the repository, and the job it returns
first has the earliest `created_at` among them — no priority reordering. -/
theorem c7_queue_fifo (db : DB) (r : String) (grace now retry_delay : Nat) :
    (∀ j ∈ db.jobs, job_eligible [r] grace retry_delay now j = true →
        j ∈ job_queue_query db [r] grace now retry_delay) ∧
    (∀ j0, (job_queue_query db [r] grace now retry_delay).head? = some j0 →
        ∀ j ∈ job_queue_query db [r] grace now retry_delay,
          j0.created_at ≤ j.created_at) := by
  constructor
  · intro j hj he
    rw [job_queue_query, (List.perm_insertionSort jobLE _).mem_iff]
    exact List.mem_filter.mpr ⟨hj, he⟩
  · intro j0 h0 j hj
    have hs := List.sorted_insertionSort jobLE
      (db.jobs.filter (job_eligible [r] grace retry_delay now))
    rw [job_queue_query] at h0 hj
    revert h0 hj
    cases hq : List.insertionSort jobLE
        (db.jobs.filter (job_eligible [r] grace retry_delay now)) with
    | nil => intro h0; exact absurd h0 (by simp)
    | cons a t =>
      intro h0 hj
      rw [hq] at hs
      have ha : a = j0 := by
        simpa using h0
      rcases List.mem_cons.mp hj with hja | hjt
      · rw [← ha, hja]
      · exact ha ▸ (List.pairwise_cons.mp hs).1 j hjt

/-- An early SUBMITTED job for the try repository, used in witnesses. -/
def jobA : LandingJob :=
  { id := 0, status := LandingJobStatus.SUBMITTED, repository_name := "try",
    repository_url := "http://hg.test", requester_email := "a@example.com",
    target_cset := "abcabcabcaabcabcabcaabcabcabcaabcabcabca", created_at := 1,
    updated_at := 1, attempts := 0, error_message := "" }

/-- A later SUBMITTED job for the try repository, used in witnesses. -/
def jobB : LandingJob :=
  { id := 1, status := LandingJobStatus.SUBMITTED, repository_name := "try",
    repository_url := "http://hg.test", requester_email := "b@example.com",
    target_cset := "abcabcabcaabcabcabcaabcabcabcaabcabcabca", created_at := 5,
    updated_at := 5, attempts := 0, error_message := "" }

/-- A store holding the two witness jobs, deliberately out of FIFO order. -/
def dbW : DB := { jobs := [jobB, jobA], revisions := [] }

/-- Witness for C7: in a concrete store holding a later job before an earlier
one, both are returned and the first-returned job is not later than jobB. -/
theorem c7_queue_fifo_witness :
    jobB ∈ job_queue_query dbW ["try"] 0 10 0 ∧
    jobA.created_at ≤ jobB.created_at := by
  have h1 := (c7_queue_fifo dbW ("try") 0 10 0).1 jobB (by decide) (by decide)
  exact ⟨h1, (c7_queue_fifo dbW ("try") 0 10 0).2 jobA (by decide) jobB h1⟩

/-- The claim update preserves `find?` by id: the found row is the observed
row, stamped IN_PROGRESS. -/
theorem find?_map_claim_update (jid now : Nat) (l : List LandingJob) :
    (l.map (claim_update jid now)).find? (fun k => k.id == jid)
      = (l.find? (fun k => k.id == jid)).map (fun k =>
          { k with status := LandingJobStatus.IN_PROGRESS, updated_at := now }) := by
  induction l with
  | nil => rfl
  | cons a l ih =>
    by_cases h : (a.id == jid) = true
    · simp [List.find?, claim_update, h]
    · have h' : (a.id == jid) = false := by simpa using h
      simp [List.find?, claim_update, h', ih]

/-- C8: the claim protocol is exactly-once: for a job in a ready status, of
two atomic claim attempts carrying the same observed snapshot (the
interleaving of two racing workers), the first transitions the job to
IN_PROGRESS and the second observes `ClaimConflict` and leaves the store
unchanged. -/
theorem c8_claim_exactly_once (db : DB) (j : LandingJob) (now1 now2 : Nat)
    (hfind : db.jobs.find? (fun k => k.id == j.id) = some j)
    (hready : is_claimable j.status = true) :
    (try_claim db j.id j.status j.updated_at now1).1 = ClaimResult.claimed ∧
    (((try_claim db j.id j.status j.updated_at now1).2.jobs.find?
        (fun k => k.id == j.id)).map LandingJob.status
      = some LandingJobStatus.IN_PROGRESS) ∧
    try_claim (try_claim db j.id j.status j.updated_at now1).2 j.id j.status
        j.updated_at now2
      = (ClaimResult.conflict, (try_claim db j.id j.status j.updated_at now1).2) := by
  have hstep1 : try_claim db j.id j.status j.updated_at now1
      = (ClaimResult.claimed,
         { db with jobs := db.jobs.map (claim_update j.id now1) }) := by
    simp [try_claim, hfind, hready]
  have hfind1 : (db.jobs.map (claim_update j.id now1)).find?
        (fun k => k.id == j.id)
      = some { j with status := LandingJobStatus.IN_PROGRESS, updated_at := now1 } := by
    rw [find?_map_claim_update, hfind]
    rfl
  have hnotin : j.status ≠ LandingJobStatus.IN_PROGRESS := by
    intro hcontra
    rw [hcontra] at hready
    exact absurd hready (by decide)
  refine ⟨by rw [hstep1], ?_, ?_⟩
  · rw [hstep1]
    show Option.map LandingJob.status
        ((db.jobs.map (claim_update j.id now1)).find? (fun k => k.id == j.id))
      = some LandingJobStatus.IN_PROGRESS
    rw [hfind1]
    rfl
  · rw [hstep1]
    show try_claim { db with jobs := db.jobs.map (claim_update j.id now1) } j.id
        j.status j.updated_at now2
      = (ClaimResult.conflict,
         { db with jobs := db.jobs.map (claim_update j.id now1) })
    simp only [try_claim, hfind1]
    rw [if_neg]
    rintro ⟨hs, -, -⟩
    exact hnotin hs.symm

/-- Witness for C8 at a concrete store: two racing claims of jobA. -/
theorem c8_claim_exactly_once_witness :
    (try_claim dbW jobA.id jobA.status jobA.updated_at 9).1
      = ClaimResult.claimed ∧
    (((try_claim dbW jobA.id jobA.status jobA.updated_at 9).2.jobs.find?
        (fun k => k.id == jobA.id)).map LandingJob.status
      = some LandingJobStatus.IN_PROGRESS) ∧
    try_claim (try_claim dbW jobA.id jobA.status jobA.updated_at 9).2 jobA.id
        jobA.status jobA.updated_at 11
      = (ClaimResult.conflict,
         (try_claim dbW jobA.id jobA.status jobA.updated_at 9).2) :=
  c8_claim_exactly_once dbW jobA 9 11 (by decide) (by decide)

/-- C10: in the uplift create endpoint the second validation branch is
unreachable: a repository that resolves but has `approval_required` false is
answered by the first branch's "not a repository known to Lando" problem, and
no input at all produces the "not an uplift repository" problem — the
endpoint either returns the first branch's problem or proceeds. -/
theorem c10_second_branch_unreachable :
    (∀ (all_repos : String → Option Repo) (repo_name : String) (r : Repo),
        all_repos repo_name = some r → r.approval_required = false →
        uplift_create_validation all_repos repo_name
          = UpliftValidation.problem 400
              ("Repository " ++ repo_name ++
                " is not a repository known to Lando.")) ∧
    (∀ (all_repos : String → Option Repo) (repo_name : String),
        uplift_create_validation all_repos repo_name
          = UpliftValidation.problem 400
              ("Repository " ++ repo_name ++
                " is not a repository known to Lando.")
        ∨ uplift_create_validation all_repos repo_name
            = UpliftValidation.proceed) := by
  constructor
  · intro f n r hf ha
    simp [uplift_create_validation, hf, ha]
  · intro f n
    cases hf : f n with
    | none => exact Or.inl (by simp [uplift_create_validation, hf])
    | some r =>
      by_cases ha : r.approval_required
      · exact Or.inr (by simp [uplift_create_validation, hf, ha])
      · exact Or.inl (by
          simp [uplift_create_validation, hf,
            Bool.eq_false_iff.mpr ha])

/-- A registry resolving only mozilla-central, to a non-uplift repository. -/
def upliftRepos : String → Option Repo := fun n =>
  if n = "mozilla-central" then some repo0 else none

/-- Witness for C10: the test suite's scenario (resolvable, non-uplift
repository mozilla-central) is answered by the first branch. -/
theorem c10_second_branch_unreachable_witness :
    uplift_create_validation upliftRepos ("mozilla-central")
      = UpliftValidation.problem 400
          ("Repository " ++ "mozilla-central" ++
            " is not a repository known to Lando.") :=
  c10_second_branch_unreachable.1 upliftRepos ("mozilla-central") repo0
    (by simp [upliftRepos]) rfl

/-!
Embedding of `move_drev_to_original` (landoapi/uplift.py, lines 26-62).

The Python function uses two `re.MULTILINE` regular expressions over the
commit-message body,

  ARC_DIFF_REV_RE:      anchored  \s* "Differential Revision:" \s*
                        (phab_url: https?://.+) /D (rev: digits) \s*  to `$`
  ORIGINAL_DIFF_REV_RE: the same with the literal "Original Revision:",

with `search` for both and `ARC_DIFF_REV_RE.sub` for the rewrite, the
replacement being a newline followed by `Original Revision:, phab_url, /D,
rev`. The embedding represents the body as its list of newline-separated
lines and implements the matcher specialised to this pattern shape. This is
exact for these patterns because a match can only start where `^` holds
(a line start); `$` together with the final greedy `\s*` makes every match
end exactly at a line end (the trailing `\s*` backtracks to just before a
newline, or runs to the end of the input); each inner `\s*` is followed by a
non-whitespace literal, so its greediness is deterministic, while the greedy
`.+` is implemented with its exact backtracking order (longest first); and
`\s` may consume newlines, which the matcher mirrors by walking across
whitespace-only lines. The patterns are `str` patterns compiled without
`re.ASCII`, so `\s` and `\d` are the Unicode classes: `\s` is CPython's
Unicode whitespace table and `\d` is the Unicode general category Nd
(decimal digits), both encoded below in full (Unicode 13.0, the database of
the CPython 3.9 this service runs on; `^`/`$` in MULTILINE mode still only
recognise the newline character, so the line representation is unaffected).
-/

/-- Python's `\s` for `str` patterns (no `re.ASCII`): CPython's Unicode
whitespace table (`Py_UNICODE_ISSPACE`) — tab through carriage return, the
separators 0x1c-0x1f, space, next line 0x85, no-break space 0xa0, Ogham
space mark 0x1680, the en-quad..hair-space run 0x2000-0x200a, line and
paragraph separators 0x2028/0x2029, narrow no-break space 0x202f, medium
mathematical space 0x205f and ideographic space 0x3000. -/
def wsChar (c : Char) : Bool :=
  decide (0x09 ≤ c.toNat ∧ c.toNat ≤ 0x0d) ||
  decide (0x1c ≤ c.toNat ∧ c.toNat ≤ 0x20) ||
  c.toNat == 0x85 || c.toNat == 0xa0 || c.toNat == 0x1680 ||
  decide (0x2000 ≤ c.toNat ∧ c.toNat ≤ 0x200a) ||
  c.toNat == 0x2028 || c.toNat == 0x2029 || c.toNat == 0x202f ||
  c.toNat == 0x205f || c.toNat == 0x3000

/-- The first code point of every run of Unicode decimal digits (general
category Nd, Unicode 13.0): each script's digits occupy exactly the ten code
points start..start+9. -/
def ndRangeStarts : List Nat :=
  [0x30, 0x660, 0x6f0, 0x7c0, 0x966, 0x9e6, 0xa66, 0xae6, 0xb66, 0xbe6,
   0xc66, 0xce6, 0xd66, 0xde6, 0xe50, 0xed0, 0xf20, 0x1040, 0x1090, 0x17e0,
   0x1810, 0x1946, 0x19d0, 0x1a80, 0x1a90, 0x1b50, 0x1bb0, 0x1c40, 0x1c50,
   0xa620, 0xa8d0, 0xa900, 0xa9d0, 0xa9f0, 0xaa50, 0xabf0, 0xff10,
   0x104a0, 0x10d30, 0x11066, 0x110f0, 0x11136, 0x111d0, 0x112f0, 0x11450,
   0x114d0, 0x11650, 0x116c0, 0x11730, 0x118e0, 0x11950, 0x11c50, 0x11d50,
   0x11da0, 0x16a60, 0x16b50, 0x1d7ce, 0x1d7d8, 0x1d7e2, 0x1d7ec, 0x1d7f6,
   0x1e140, 0x1e2f0, 0x1e950, 0x1fbf0]

/-- Python's `\d` for `str` patterns (no `re.ASCII`): any Unicode decimal
digit (general category Nd). -/
def digitChar (c : Char) : Bool :=
  ndRangeStarts.any (fun s => decide (s ≤ c.toNat ∧ c.toNat < s + 10))

/-- Split a character list into its newline-separated lines (the inverse of
`joinLines`; an empty input is the single empty line). -/
def splitLines : List Char → List (List Char)
  | [] => [[]]
  | c :: r =>
    if c = '\n' then [] :: splitLines r
    else
      match splitLines r with
      | [] => [[c]]
      | l :: ls => (c :: l) :: ls

/-- Join lines with newline separators. -/
def joinLines : List (List Char) → List Char
  | [] => []
  | [l] => l
  | l :: ls => l ++ '\n' :: joinLines ls

/-- Consume a literal character sequence, returning the remainder. -/
def dropLit : List Char → List Char → Option (List Char)
  | [], s => some s
  | _ :: _, [] => none
  | c :: cs, x :: xs => if x = c then dropLit cs xs else none

/-- Greedy `\s*` from a position (rest of current line `c`, following lines
`ls`), crossing line ends: returns the first non-whitespace position, or
`none` when only whitespace remains to the end of the input. -/
def wsSkipAux : List (List Char) → List Char → Option (List Char × List (List Char))
  | [], c =>
    match c.dropWhile wsChar with
    | [] => none
    | c' => some (c', [])
  | m :: tl, c =>
    match c.dropWhile wsChar with
    | [] => wsSkipAux tl m
    | c' => some (c', m :: tl)

/-- Consume the whitespace-only lines at the head of `ls` (the spill of a
greedy `\s*$` past the current line end): `none` when the input is exhausted,
otherwise the remainder starting at the first line holding a non-whitespace
character. -/
def wsLinesDrop : List (List Char) → Option (List (List Char))
  | [] => none
  | m :: tl => if (m.dropWhile wsChar).isEmpty then wsLinesDrop tl else some (m :: tl)

/-- Greedy `\s*$` (MULTILINE) after the digit group: the rest `t` of the
current line must be all whitespace (otherwise `$` cannot be reached), and the
match then swallows every following whitespace-only line, ending just before
the newline that precedes the first non-whitespace line (or at the end of
input). Returns `none` on failure, otherwise the remainder lines (`none`
inside when the match reaches the end of the input). -/
def eolWS (t : List Char) (ls : List (List Char)) :
    Option (Option (List (List Char))) :=
  if (t.dropWhile wsChar).isEmpty then some (wsLinesDrop ls) else none

/-- Match `/D`, the nonempty digit group (maximal munch: a shorter digit
match would put `\s*$` in front of a digit and fail), then `\s*$`. Returns
the digit group and the remainder lines. -/
def tailParse (t : List Char) (ls : List (List Char)) :
    Option (List Char × Option (List (List Char))) :=
  match dropLit ['/', 'D'] t with
  | none => none
  | some r =>
    if (r.takeWhile digitChar).isEmpty then none
    else
      match eolWS (r.dropWhile digitChar) ls with
      | none => none
      | some rest => some (r.takeWhile digitChar, rest)

/-- Greedy `.+` before `/D`: split the line content as `u ++ t` with `u`
nonempty and the `/D(\d+)\s*$` tail matching at `t`, preferring the longest
`u` (the backtracking order of a greedy `.+`, which cannot cross the line
end since `.` does not match a newline). -/
def splitRev (ls : List (List Char)) : List Char →
    Option (List Char × List Char × Option (List (List Char)))
  | [] => none
  | c :: cs =>
    match splitRev ls cs with
    | some (u, ds, rest) => some (c :: u, ds, rest)
    | none =>
      match tailParse cs ls with
      | some (ds, rest) => some ([c], ds, rest)
      | none => none

/-- Match `https?://`, returning the matched scheme text and the remainder.
After `http`, a greedy `s?` commits: when the next character is `s` it must
be followed by `://`, since the no-`s` alternative would require `:` where
`s` stands and can never succeed on backtracking. -/
def schemeParse (c : List Char) : Option (List Char × List Char) :=
  match dropLit ("http").toList c with
  | none => none
  | some c1 =>
    match dropLit ['s'] c1 with
    | some c2 =>
      match dropLit ("://").toList c2 with
      | none => none
      | some c3 => some (("https://").toList, c3)
    | none =>
      match dropLit ("://").toList c1 with
      | none => none
      | some c3 => some (("http://").toList, c3)

/-- Match `(https?://.+)/D(\d+)\s*$` at a non-whitespace position: returns
the `phab_url` group (scheme included), the `rev` digit group, and the
remainder lines after the match. -/
def urlParse (c : List Char) (ls : List (List Char)) :
    Option (List Char × List Char × Option (List (List Char))) :=
  match schemeParse c with
  | none => none
  | some (scheme, c3) =>
    match splitRev ls c3 with
    | none => none
    | some (u, ds, rest) => some (scheme ++ u, ds, rest)

/-- Continue after a `\s*` in front of the url: fail when only whitespace
remains, otherwise match the url/rev tail at the first non-whitespace
position. -/
def afterWS (p : Option (List Char × List (List Char))) :
    Option (List Char × List Char × Option (List (List Char))) :=
  match p with
  | none => none
  | some (c2, ls2) => urlParse c2 ls2

/-- Match the pattern after the leading `\s*`: the literal label, then `\s*`
(which may cross line ends), then the url/rev tail. -/
def matchFrom (label : List Char) (c : List Char) (ls : List (List Char)) :
    Option (List Char × List Char × Option (List (List Char))) :=
  match dropLit label c with
  | none => none
  | some c1 => afterWS (wsSkipAux ls c1)

/-- Try to match the whole pattern at the `^` anchor at the head of `ls`
(the leading `\s*` may swallow entire whitespace-only lines, so the
attempt walks into later lines while they are blank). Returns the two
groups and the remainder lines after the match (`none` when the match ends
at the end of the input). -/
def matchLines (label : List Char) : List (List Char) →
    Option (List Char × List Char × Option (List (List Char)))
  | [] => none
  | l :: rest =>
    match l.dropWhile wsChar with
    | [] => matchLines label rest
    | c => matchFrom label c rest

/-- Python `re.search` of the anchored pattern: a match exists at some line
start. -/
def hasMatch (label : List Char) : List (List Char) → Bool
  | [] => false
  | l :: rest => (matchLines label (l :: rest)).isSome || hasMatch label rest

/-- The literal of ARC_DIFF_REV_RE. -/
def arcLabel : List Char := ("Differential Revision:").toList

/-- The literal of ORIGINAL_DIFF_REV_RE. -/
def origLabel : List Char := ("Original Revision:").toList

/-- The replacement line produced by `repl`: `Original Revision: ` followed
by the `phab_url` group, `/D` and the `rev` group (the replacement's leading
newline is represented by the empty line emitted before this one). -/
def origLine (url rev : List Char) : List Char :=
  ("Original Revision: ").toList ++ url ++ '/' :: 'D' :: rev

/-- Apply the substitution at every anchor, left to right (`re.sub` replaces
each non-overlapping match and resumes scanning after it; a match's remainder
always starts just before a newline, i.e. at the next line boundary). At a
line start, when the pattern matches, emit the replacement — an empty line
standing for the replacement's leading newline, then the rewritten revision
line — and continue with the remainder; otherwise copy the line. `fuel`
bounds the recursion; every match consumes at least one line, so
`ls.length` is always enough fuel, and the fuel-exhausted branch is dead
code. -/
def subLinesF : Nat → List (List Char) → List (List Char)
  | _, [] => []
  | 0, ls => ls
  | fuel + 1, l :: rest =>
    match matchLines arcLabel (l :: rest) with
    | some (url, rev, none) => [[], origLine url rev]
    | some (url, rev, some rls) => [] :: origLine url rev :: subLinesF fuel rls
    | none => l :: subLinesF fuel rest

/-- `ARC_DIFF_REV_RE.sub(repl, body)` on the line representation. -/
def subLines (ls : List (List Char)) : List (List Char) := subLinesF ls.length ls

/-- Embedding of `landoapi/uplift.py::move_drev_to_original` (lines 36-62):
when the body holds both a `Differential Revision` and an `Original Revision`
match, return it unchanged; otherwise rewrite every `Differential Revision`
match to the `Original Revision` form. -/
def move_drev_to_original (body : String) : String :=
  if hasMatch arcLabel (splitLines body.toList)
      && hasMatch origLabel (splitLines body.toList) then body
  else String.mk (joinLines (subLines (splitLines body.toList)))

/-- Sanity check against the first scenario of
`tests/test_uplift.py::test_move_drev_to_original`: the `Differential
Revision` line is rewritten to `Original Revision`. -/
theorem move_drev_rewrite_vector :
    move_drev_to_original
        ("bug 1: title r?reviewer\n\nDifferential Revision: http://phabricator.test/D1")
      = "bug 1: title r?reviewer\n\nOriginal Revision: http://phabricator.test/D1" := by
  decide

/-- Sanity check against the second scenario of
`tests/test_uplift.py::test_move_drev_to_original`: a body already holding an
`Original Revision` line is left unchanged. -/
theorem move_drev_unchanged_vector :
    move_drev_to_original
        ("bug 1: title r?reviewer\n\nOriginal Revision: http://phabricator.test/D1\n\nDifferential Revision: http://phabricator.test/D2")
      = "bug 1: title r?reviewer\n\nOriginal Revision: http://phabricator.test/D1\n\nDifferential Revision: http://phabricator.test/D2" := by
  decide

/-- Sanity check of the uplift-creation flow vector
(`tests/test_uplift.py::test_uplift_creation`): the summary's `Differential
Revision` line becomes the `Original Revision` line. -/
theorem move_drev_summary_vector :
    move_drev_to_original
        ("some really complex stuff\n\nDifferential Revision: http://phabricator.test/D1")
      = "some really complex stuff\n\nOriginal Revision: http://phabricator.test/D1" := by
  decide

/-- The Unicode `\s` class in action: a no-break space (U+00A0) after the
colon is whitespace for the pattern, so the line is rewritten — the match
starts at the line start and the replacement carries its leading newline. -/
theorem move_drev_nbsp_vector :
    move_drev_to_original
        ("Differential Revision:\u00A0http://phabricator.test/D1")
      = "\nOriginal Revision: http://phabricator.test/D1" := by
  decide

/-- The Unicode `\d` class in action: an Arabic-Indic digit (U+0661) is a
decimal digit for the pattern, so the revision group matches and the line is
rewritten. -/
theorem move_drev_unicode_digit_vector :
    move_drev_to_original
        ("Differential Revision: http://phabricator.test/D\u0661")
      = "\nOriginal Revision: http://phabricator.test/D\u0661" := by
  decide

/-! Lemmas about the line representation. -/

